import Mathlib

/-!
Shallow embedding of the Grade & Goal Progress Engine of `src/app.py`:
the encrypted grade store (`encrypt_grade`, `decrypt_grade`,
`decrypt_grade_safe`), the per-class average computations
(`compute_class_average_for_user`, the per-class body of the
`grade_tracker` overview route and the `grade_tracker_class` route) and
the goal-progress evaluator (`compute_goal_progress`,
`get_class_name_from_links`).

Numbers are modelled as exact rationals (`ℚ`); Python `round(x, 2)` is
modelled as round-half-to-even of `100 * x` divided by `100`, which is
Python 3 rounding on exact values.  The two SQL backends (Postgres and
SQLite) differ in the matching predicates of several queries, so every
query-backed function takes an `isPG : Bool` flag mirroring the
`IS_POSTGRES` branches of the source.  A database snapshot is a record
of row lists; SQL filters become `List.filter` over them.
-/

/-- Python 3 `round` to an integer: round half to even (banker's rounding). -/
def pyRound (q : ℚ) : ℤ :=
  let f : ℤ := ⌊q⌋
  let r : ℚ := q - f
  if r < 1/2 then f
  else if 1/2 < r then f + 1
  else if f % 2 = 0 then f else f + 1

/-- Python `round(x, 2)`: two decimal places, half to even. -/
def round2 (q : ℚ) : ℚ := (pyRound (q * 100) : ℚ) / 100

/-!
## GradeCodec

`encrypt_grade` / `decrypt_grade` / `decrypt_grade_safe` wrap the
external Fernet cipher (`cryptography` package) and Python's `str` /
`float` conversions.  These collaborators are modelled abstractly as a
structure whose fields carry exactly the documented contract of the
library: decrypting a token the cipher produced returns the original
plaintext, an encrypted token is never falsy, and `float(str(x)) == x`
for any finite `x`.  `P` is the plaintext type, `T` the token type.
-/

structure GradeCrypto (P T : Type) where
  /-- `GRADE_CIPHER.encrypt` for the process-wide key. -/
  fernetEnc : P → T
  /-- `GRADE_CIPHER.decrypt` for the process-wide key; `none` models a
  raised `InvalidToken` (corrupt token, wrong key, bad encoding). -/
  fernetDec : T → Option P
  /-- Python falsiness of a token value (`not token`): empty bytes/str. -/
  isFalsy : T → Bool
  /-- Python `str` on a finite number. -/
  pyStr : ℚ → P
  /-- Python `float` on decrypted plaintext; `none` models a raised
  `ValueError` (non-numeric plaintext). -/
  pyFloat : P → Option ℚ
  enc_not_falsy : ∀ p, isFalsy (fernetEnc p) = false
  dec_enc : ∀ p, fernetDec (fernetEnc p) = some p
  float_str : ∀ x, pyFloat (pyStr x) = some x

/-- `encrypt_grade(value)`: `GRADE_CIPHER.encrypt(str(value).encode())`. -/
def encrypt_grade {P T : Type} (K : GradeCrypto P T) (value : ℚ) : T :=
  K.fernetEnc (K.pyStr value)

/-- `decrypt_grade(token)`: `float(GRADE_CIPHER.decrypt(token).decode())`.
`none` models the exception path (callers wrap this in `try`/`except`). -/
def decrypt_grade {P T : Type} (K : GradeCrypto P T) (token : T) : Option ℚ :=
  match K.fernetDec token with
  | some plain => K.pyFloat plain
  | none => none

/-- `decrypt_grade_safe(token)`: returns `None` when the token is falsy
(`None`, empty bytes or empty string), otherwise decrypts under a
blanket `except` returning `None`.  The argument is `Option T` with
`none` standing for Python `None`. -/
def decrypt_grade_safe {P T : Type} (K : GradeCrypto P T) :
    Option T → Option ℚ
  | none => none
  | some t =>
    if K.isFalsy t then none
    else
      match K.fernetDec t with
      | some plain => K.pyFloat plain
      | none => none

/-- A concrete codec used to evaluate the engine on closed inputs:
plaintexts are the numbers themselves and a token either carries its
plaintext (`some q`) or is the one corrupt token (`none`). -/
def idCrypto : GradeCrypto ℚ (Option ℚ) where
  fernetEnc := some
  fernetDec := id
  isFalsy t := t.isNone
  pyStr := id
  pyFloat := some
  enc_not_falsy _ := rfl
  dec_enc _ := rfl
  float_str _ := rfl

/-!
## Strings and SQL values

`LOWER` / `TRIM` (SQL) and `.lower()` / `.strip()` (Python) are modelled
structurally over the character list of a `String` so that they compute
inside the kernel.  The claims only involve ASCII letters and space
padding, for which these models agree with both SQL backends and Python.
-/

/-- ASCII lower-casing of one character (SQL `LOWER`, Python `.lower()`). -/
def lowerChar (c : Char) : Char :=
  if 'A' ≤ c ∧ c ≤ 'Z' then Char.ofNat (c.toNat + 32) else c

/-- SQL `LOWER(s)` / Python `s.lower()`. -/
def strLower (s : String) : String := ⟨s.data.map lowerChar⟩

/-- SQL `TRIM(s)` / Python `s.strip()`: drop leading and trailing spaces. -/
def strTrim (s : String) : String :=
  ⟨((s.data.dropWhile (· == ' ')).reverse.dropWhile (· == ' ')).reverse⟩

/-- A dynamically typed SQL value (SQLite storage classes): TEXT,
INTEGER or REAL. -/
inductive SqlVal where
  | s (v : String)
  | i (n : ℤ)
  | r (q : ℚ)
deriving DecidableEq

/-- SQLite `=` across storage classes: INTEGER and REAL compare
numerically, TEXT compares only with TEXT, and TEXT never equals a
number. -/
def sqlEq : SqlVal → SqlVal → Bool
  | .s a, .s b => a == b
  | .i a, .i b => a == b
  | .r a, .r b => a == b
  | .i a, .r b => (a : ℚ) == b
  | .r a, .i b => a == (b : ℚ)
  | _, _ => false

/-- Python truthiness of a SQL value (`bool(v)`). -/
def pyTruthyVal : SqlVal → Bool
  | .s v => !(v == "")
  | .i n => !(n == 0)
  | .r q => !(q == 0)

/-- Python truthiness of a nullable SQL value (`None` is falsy). -/
def pyTruthyOpt : Option SqlVal → Bool
  | none => false
  | some v => pyTruthyVal v

/-- Python `float(v)` on a SQL value; `none` models a raised
`ValueError`/`TypeError`.  A TEXT value stored in the REAL-affinity
`target_value` column is non-numeric (numeric text is converted to REAL
by SQLite at insert time), so `float` on it raises. -/
def asPyNumber : SqlVal → Option ℚ
  | .i n => some (n : ℚ)
  | .r q => some q
  | .s _ => none

/-- Python truthiness of a nullable integer id (`if not class_id`). -/
def truthyId : Option ℕ → Bool
  | none => false
  | some n => !(n == 0)

/-!
## Data model

Row shapes of the `assignments`, `grades`, `class_links` and `goals`
tables (only the columns the engine reads).  `T` is the encrypted token
type of the `grade` / `out_of` BLOB columns, which are `NOT NULL`.
-/

structure Assignment where
  id : ℕ
  user_id : ℕ
  title : String
  cl : String
  due_date : String
  submitted : Bool
deriving DecidableEq

structure GradeEntry (T : Type) where
  /-- Primary key; also the insertion sequence number. -/
  id : ℕ
  assignment_id : ℕ
  user_id : ℕ
  grade : T
  out_of : T
  /-- `INTEGER DEFAULT 0`; the tracker buckets on `proficiency == 1`. -/
  proficiency : ℤ
deriving DecidableEq

structure ClassLink where
  id : ℕ
  user_id : ℕ
  class_name : String
  link : String
deriving DecidableEq

structure Goal where
  id : ℕ
  user_id : ℕ
  /-- Nullable foreign key into `class_links` / `classes`. -/
  class_id : Option ℕ
  title : String
  goal_type : String
  /-- `REAL` column, nullable; dynamically typed in SQLite. -/
  target_value : Option SqlVal
  deadline : Option String
deriving DecidableEq

/-- A snapshot of the persisted rows the engine reads. -/
structure DB (T : Type) where
  assignments : List Assignment
  grades : List (GradeEntry T)
  class_links : List ClassLink
deriving DecidableEq

/-!
## compute_class_average_for_user  (src/app.py lines 402-479)
-/

/-- The assignment-lookup predicate of `compute_class_average_for_user`.
Postgres: `LOWER(TRIM(cl)) = LOWER(TRIM(%s))`; SQLite: `TRIM(cl) = ?`
(the parameter is neither trimmed nor lower-cased, and the comparison is
typed: a non-TEXT parameter never equals the TEXT label).  On Postgres a
non-TEXT parameter likewise never matches a text label (the interpolated
query does not even type-check there), modelled as `false`. -/
def avgParamMatch (isPG : Bool) (cl : String) (param : SqlVal) : Bool :=
  if isPG then
    match param with
    | .s v => strLower (strTrim cl) == strLower (strTrim v)
    | _ => false
  else
    sqlEq (.s (strTrim cl)) param

/-- The latest-grade query of `compute_class_average_for_user`: rows of
`grades` for this user whose `assignment_id` is in `ids` and whose `id`
is the `MAX(id)` of their `(user_id, assignment_id)` group. -/
def latestGradeRows {T : Type} (grades : List (GradeEntry T)) (uid : ℕ)
    (ids : List ℕ) : List (GradeEntry T) :=
  grades.filter (fun g =>
    g.user_id == uid && ids.contains g.assignment_id &&
    grades.all (fun g2 =>
      !(g2.user_id == uid && g2.assignment_id == g.assignment_id) ||
        decide (g2.id ≤ g.id)))

/-- The per-entry loop of `compute_class_average_for_user`: decrypt both
tokens with `decrypt_grade_safe`, skip the entry when either is `None`
or `out_of` is `0`, else yield `grade / out_of * 100` (unrounded). -/
def classAvgPercentages {P T : Type} (K : GradeCrypto P T)
    (rows : List (GradeEntry T)) : List ℚ :=
  rows.filterMap (fun g =>
    match decrypt_grade_safe K (some g.grade),
          decrypt_grade_safe K (some g.out_of) with
    | some g_val, some o_val =>
      if o_val = 0 then none else some (g_val / o_val * 100)
    | _, _ => none)

/-- `compute_class_average_for_user(class_id, user_id, cursor)`.  The
first argument is passed verbatim into the SQL parameter (the caller in
`compute_goal_progress` passes the numeric `class_id` of the goal). -/
def compute_class_average_for_user {P T : Type} (K : GradeCrypto P T)
    (isPG : Bool) (db : DB T) (class_param : SqlVal) (uid : ℕ) : Option ℚ :=
  let assignment_ids :=
    (db.assignments.filter (fun a =>
      a.user_id == uid && avgParamMatch isPG a.cl class_param)).map
      (fun a => a.id)
  if assignment_ids.isEmpty then none
  else
    let percentages := classAvgPercentages K
      (latestGradeRows db.grades uid assignment_ids)
    if percentages.isEmpty then none
    else some (round2 (percentages.sum / percentages.length))

/-!
## get_class_name_from_links  (lines 481-492)
-/

/-- `get_class_name_from_links(class_id, user_id)`: `None` for a falsy
id, else the `class_name` of the matching `class_links` row, `None` when
the row is gone. -/
def get_class_name_from_links {T : Type} (db : DB T)
    (class_id : Option ℕ) (uid : ℕ) : Option String :=
  if truthyId class_id then
    ((db.class_links.filter (fun l =>
      l.id == class_id.getD 0 && l.user_id == uid)).head?).map
      (fun l => l.class_name)
  else none

/-!
## compute_goal_progress  (lines 495-628)
-/

/-- The class-name matching predicate shared by the completion-goal
count (lines 571-588) and the `grade_tracker` overview lookup (lines
1195-1207).  Postgres: `LOWER(TRIM(cl)) = LOWER(TRIM(name))`; SQLite:
`TRIM(cl) = TRIM(name)` (no lower-casing). -/
def classNameMatch (isPG : Bool) (cl name : String) : Bool :=
  if isPG then strLower (strTrim cl) == strLower (strTrim name)
  else strTrim cl == strTrim name

/-- The completion-goal count: submitted assignments of the user,
restricted to the class when a class name resolved, unrestricted
otherwise. -/
def completionDone {T : Type} (isPG : Bool) (db : DB T) (uid : ℕ) :
    Option String → ℕ
  | some name =>
    (db.assignments.filter (fun a =>
      a.user_id == uid && classNameMatch isPG a.cl name && a.submitted)).length
  | none =>
    (db.assignments.filter (fun a => a.user_id == uid && a.submitted)).length

/-- The dict returned by `compute_goal_progress`.  An outer `none` means
the key is absent from the dict; `some none` means the key is present
with value `None`. -/
structure GoalResult where
  type : String
  progress : Option (Option ℚ)
  completed : Option ℕ
  target : Option SqlVal
  percent_of_target : Option (Option ℚ)
deriving DecidableEq

/-- `compute_goal_progress(goal_row, user_id)`. -/
def compute_goal_progress {P T : Type} (K : GradeCrypto P T) (isPG : Bool)
    (db : DB T) (goal : Goal) (uid : ℕ) : GoalResult :=
  let gtype := strLower goal.goal_type
  let target := goal.target_value
  if gtype == "grade" then
    if truthyId goal.class_id then
      match compute_class_average_for_user K isPG db
        (SqlVal.i (goal.class_id.getD 0)) uid with
      | none => ⟨"grade", some none, none, target, some none⟩
      | some avg =>
        let percent : Option ℚ :=
          if pyTruthyOpt target then
            match target with
            | some v => (asPyNumber v).map (fun t => round2 (avg / t * 100))
            | none => none
          else none
        ⟨"grade", some (some avg), none, target, some percent⟩
    else ⟨"grade", some none, none, target, some none⟩
  else if gtype == "completion" then
    let class_name := get_class_name_from_links db goal.class_id uid
    let target_num : ℚ :=
      if pyTruthyOpt target then
        match target with
        | some v => (asPyNumber v).getD 0
        | none => 0
      else 0
    let done := completionDone isPG db uid class_name
    let percent : ℚ :=
      if 0 < target_num then
        let p := round2 ((done : ℚ) / target_num * 100)
        if 100 < p then 100 else p
      else 0
    ⟨"completion", none, some done, some (SqlVal.r target_num),
      some (some percent)⟩
  else ⟨gtype, some none, none, target, none⟩

/-!
## grade_tracker overview route, per-class body  (lines 1189-1257)

For one `class_links` row it matches the class assignments, then loads
ALL grade rows for those assignments (no latest-per-assignment
restriction) and averages the surviving percentages.
-/

/-- The class average computed for one class inside the `grade_tracker`
overview loop. -/
def grade_tracker_average {P T : Type} (K : GradeCrypto P T) (isPG : Bool)
    (db : DB T) (uid : ℕ) (class_name : String) : Option ℚ :=
  let assignment_ids :=
    (db.assignments.filter (fun a =>
      a.user_id == uid && classNameMatch isPG a.cl class_name)).map
      (fun a => a.id)
  let grade_rows := db.grades.filter (fun g =>
    g.user_id == uid && assignment_ids.contains g.assignment_id)
  let percentages := grade_rows.filterMap (fun g =>
    if K.isFalsy g.grade || K.isFalsy g.out_of then none
    else
      match decrypt_grade K g.grade, decrypt_grade K g.out_of with
      | some g_val, some o_val =>
        if o_val = 0 then none else some (g_val / o_val * 100)
      | _, _ => none)
  if percentages.isEmpty then none
  else some (round2 (percentages.sum / percentages.length))

/-!
## grade_tracker_class route  (lines 1286-1450)
-/

/-- The latest-grade query of `grade_tracker_class`
(`ORDER BY id DESC LIMIT 1`): the grade row of this assignment and user
with the greatest `id`. -/
def latestGradeFor {T : Type} (grades : List (GradeEntry T))
    (aid uid : ℕ) : Option (GradeEntry T) :=
  (grades.filter (fun g => g.assignment_id == aid && g.user_id == uid)).foldl
    (fun acc g =>
      match acc with
      | none => some g
      | some b => if b.id < g.id then some g else some b) none

/-- The data the `grade_tracker_class` route passes to its template:
the two score buckets and the blended class average. -/
structure ClassView where
  class_name : String
  proficiency_scores : List ℚ
  regular_scores : List ℚ
  class_average : Option ℚ
deriving DecidableEq

/-- `grade_tracker_class(class_id)` for a logged-in user: resolve the
class name from `class_links` (404 → `none`), collect the latest grade
of each matching assignment, round each surviving percentage to two
decimals, bucket it by `proficiency == 1`, and blend the bucket means
90/10 (or take the single non-empty bucket's mean). -/
def grade_tracker_class {P T : Type} (K : GradeCrypto P T) (isPG : Bool)
    (db : DB T) (uid : ℕ) (class_id : ℕ) : Option ClassView :=
  match (db.class_links.filter (fun l =>
      l.id == class_id && l.user_id == uid)).head? with
  | none => none
  | some link =>
    let class_name_norm := strLower (strTrim link.class_name)
    let class_assignments := db.assignments.filter (fun a =>
      a.user_id == uid &&
        (strLower (strTrim a.cl) == strLower (strTrim class_name_norm)))
    let scored : List (ℚ × ℤ) := class_assignments.filterMap (fun a =>
      match latestGradeFor db.grades a.id uid with
      | none => none
      | some g =>
        match decrypt_grade_safe K (some g.grade),
              decrypt_grade_safe K (some g.out_of) with
        | some g_val, some out_val =>
          if out_val = 0 then none
          else some (round2 (g_val / out_val * 100), g.proficiency)
        | _, _ => none)
    let proficiency_scores := (scored.filter (fun pr => pr.2 == 1)).map
      (fun pr => pr.1)
    let regular_scores := (scored.filter (fun pr => !(pr.2 == 1))).map
      (fun pr => pr.1)
    let p_avg : Option ℚ :=
      if proficiency_scores.isEmpty then none
      else some (proficiency_scores.sum / proficiency_scores.length)
    let r_avg : Option ℚ :=
      if regular_scores.isEmpty then none
      else some (regular_scores.sum / regular_scores.length)
    let class_average : Option ℚ :=
      match p_avg, r_avg with
      | some p, some r => some (p * (90/100) + r * (10/100))
      | some p, none => some p
      | none, some r => some r
      | none, none => none
    some ⟨link.class_name, proficiency_scores, regular_scores, class_average⟩

/-!
## Concrete fixtures

A shared set of closed database snapshots over the concrete `idCrypto`
codec, used to evaluate the engine at specific inputs.
-/

/-- One class "math" (link id 7) with a proficiency entry 100/100 and a
regular entry 80/100 for user 1. -/
def dbBlend : DB (Option ℚ) where
  assignments := [⟨1, 1, "HW1", "math", "2025-01-01", true⟩,
                  ⟨2, 1, "HW2", "math", "2025-01-02", true⟩]
  grades := [⟨1, 1, 1, some 100, some 100, 1⟩,
             ⟨2, 2, 1, some 80, some 100, 0⟩]
  class_links := [⟨7, 1, "math", ""⟩]

/-- A grade goal of user 1 bound to class id 7 with target 85. -/
def goalGrade : Goal := ⟨1, 1, some 7, "Grade goal", "grade", some (SqlVal.r 85), none⟩

/-- One assignment with a grade history: entry id 1 scores 50/100, the
later entry id 2 scores 100/100. -/
def dbHist : DB (Option ℚ) where
  assignments := [⟨1, 1, "HW1", "math", "2025-01-01", true⟩]
  grades := [⟨1, 1, 1, some 50, some 100, 0⟩,
             ⟨2, 1, 1, some 100, some 100, 0⟩]
  class_links := [⟨7, 1, "math", ""⟩]

/-- One submitted assignment whose class label is `" Math "` (padded,
capitalised), graded 90/100; the class-links name is `"math"`. -/
def dbTrimCase : DB (Option ℚ) where
  assignments := [⟨1, 1, "HW1", " Math ", "2025-01-01", true⟩]
  grades := [⟨1, 1, 1, some 90, some 100, 0⟩]
  class_links := [⟨7, 1, "math", ""⟩]

/-- Two graded assignments whose grade rows are both unusable: the first
has a corrupt `grade` token, the second has `out_of` decrypting to 0. -/
def dbCorrupt : DB (Option ℚ) where
  assignments := [⟨1, 1, "HW1", "math", "2025-01-01", true⟩,
                  ⟨2, 1, "HW2", "math", "2025-01-02", true⟩]
  grades := [⟨1, 1, 1, none, some 100, 0⟩,
             ⟨2, 2, 1, some 50, some 0, 0⟩]
  class_links := [⟨7, 1, "math", ""⟩]

/-- Three submitted and one unsubmitted assignment for user 1. -/
def dbThree : DB (Option ℚ) where
  assignments := [⟨1, 1, "A1", "math", "2025-01-01", true⟩,
                  ⟨2, 1, "A2", "math", "2025-01-02", true⟩,
                  ⟨3, 1, "A3", "sci", "2025-01-03", true⟩,
                  ⟨4, 1, "A4", "math", "2025-01-04", false⟩]
  grades := []
  class_links := [⟨7, 1, "math", ""⟩]

/-- Seven submitted assignments for user 1. -/
def dbSeven : DB (Option ℚ) where
  assignments := [⟨1, 1, "A1", "math", "2025-01-01", true⟩,
                  ⟨2, 1, "A2", "math", "2025-01-01", true⟩,
                  ⟨3, 1, "A3", "math", "2025-01-01", true⟩,
                  ⟨4, 1, "A4", "math", "2025-01-01", true⟩,
                  ⟨5, 1, "A5", "math", "2025-01-01", true⟩,
                  ⟨6, 1, "A6", "math", "2025-01-01", true⟩,
                  ⟨7, 1, "A7", "math", "2025-01-01", true⟩]
  grades := []
  class_links := [⟨7, 1, "math", ""⟩]

/-- An unbound completion goal of user 1 with target 5. -/
def goalCompl : Goal := ⟨2, 1, none, "Complete 5", "completion", some (SqlVal.r 5), none⟩

/-- A proficiency entry scoring 1/3 (percent 33.33 after entry-level
rounding) next to a regular entry scoring 80/100. -/
def dbThird : DB (Option ℚ) where
  assignments := [⟨1, 1, "HW1", "math", "2025-01-01", true⟩,
                  ⟨2, 1, "HW2", "math", "2025-01-02", true⟩]
  grades := [⟨1, 1, 1, some 1, some 3, 1⟩,
             ⟨2, 2, 1, some 80, some 100, 0⟩]
  class_links := [⟨7, 1, "math", ""⟩]

/-- One assignment graded 150/100: a percentage above 100. -/
def dbOver : DB (Option ℚ) where
  assignments := [⟨1, 1, "HW1", "math", "2025-01-01", true⟩]
  grades := [⟨1, 1, 1, some 150, some 100, 0⟩]
  class_links := [⟨7, 1, "math", ""⟩]

/-- An empty snapshot. -/
def dbEmpty : DB (Option ℚ) := ⟨[], [], []⟩

/-- A goal of an unrecognised, mixed-case type `"Streak"`. -/
def goalStreak : Goal := ⟨3, 1, none, "Streak goal", "Streak", some (SqlVal.r 5), none⟩

/-!
## Helper lemmas
-/

lemma round2_eq_down (q : ℚ) (n : ℤ) (h1 : (n : ℚ) ≤ q * 100)
    (h2 : q * 100 < (n : ℚ) + 1/2) : round2 q = (n : ℚ) / 100 := by
  have hf : ⌊q * 100⌋ = n := by
    rw [Int.floor_eq_iff]
    exact ⟨h1, by linarith⟩
  unfold round2 pyRound
  rw [hf]
  have hr : q * 100 - (n : ℚ) < 1/2 := by linarith
  simp only [hr, if_pos]

lemma round2_eq_up (q : ℚ) (n : ℤ) (h1 : (n : ℚ) + 1/2 < q * 100)
    (h2 : q * 100 < (n : ℚ) + 1) : round2 q = ((n : ℚ) + 1) / 100 := by
  have hf : ⌊q * 100⌋ = n := by
    rw [Int.floor_eq_iff]
    exact ⟨by linarith, by linarith⟩
  unfold round2 pyRound
  rw [hf]
  have hr1 : ¬(q * 100 - (n : ℚ) < 1/2) := by push_neg; linarith
  have hr2 : 1/2 < q * 100 - (n : ℚ) := by linarith
  rw [if_neg hr1, if_pos hr2]
  push_cast
  ring

/-- A value already of the form `n / 100` is a fixed point of `round2`. -/
lemma round2_int_div_100 (n : ℤ) : round2 ((n : ℚ) / 100) = (n : ℚ) / 100 := by
  have h : ((n : ℚ) / 100) * 100 = (n : ℚ) := by
    field_simp
  rw [round2_eq_down _ n (le_of_eq h.symm) (by rw [h]; linarith)]

/-- `round2` is idempotent: Python `round(_, 2)` values have at most two
decimal places. -/
lemma round2_round2 (q : ℚ) : round2 (round2 q) = round2 q := by
  have h : round2 q = ((pyRound (q * 100) : ℚ)) / 100 := rfl
  rw [h, round2_int_div_100]

/-- When the token is not falsy, `decrypt_grade_safe` is `decrypt_grade`
under the blanket `except`. -/
lemma decrypt_grade_safe_of_not_falsy {P T : Type} (K : GradeCrypto P T)
    (t : T) (h : K.isFalsy t = false) :
    decrypt_grade_safe K (some t) = decrypt_grade K t := by
  simp [decrypt_grade_safe, decrypt_grade, h]

/-- The fold of `latestGradeFor` returns an entry whose `id` dominates
every listed entry and the accumulator. -/
lemma latestFold_max {T : Type} (l : List (GradeEntry T))
    (acc : Option (GradeEntry T)) (r : GradeEntry T)
    (h : l.foldl (fun acc g =>
      match acc with
      | none => some g
      | some b => if b.id < g.id then some g else some b) acc = some r) :
    (∀ x ∈ l, x.id ≤ r.id) ∧ (∀ b, acc = some b → b.id ≤ r.id) := by
  induction l generalizing acc with
  | nil =>
    simp only [List.foldl_nil] at h
    refine ⟨by simp, fun b hb => ?_⟩
    rw [hb] at h
    cases h
    exact le_refl _
  | cons x xs ih =>
    simp only [List.foldl_cons] at h
    obtain ⟨h1, h2⟩ := ih _ h
    have hx : x.id ≤ r.id := by
      cases hacc : acc with
      | none =>
        refine h2 x ?_
        rw [hacc]
      | some b =>
        rw [hacc] at h2
        by_cases hlt : b.id < x.id
        · exact h2 x (by simp [hlt])
        · exact le_trans (le_of_not_lt hlt) (h2 b (by simp [hlt]))
    refine ⟨fun y hy => ?_, fun b hb => ?_⟩
    · rcases List.mem_cons.1 hy with hy | hy
      · rw [hy]; exact hx
      · exact h1 y hy
    · cases hb
      by_cases hlt : b.id < x.id
      · exact le_trans (le_of_lt hlt) (h2 x (by simp [hlt]))
      · exact h2 b (by simp [hlt])

/-- On the SQLite backend the typed comparison `TRIM(cl) = ?` with an
INTEGER parameter never matches a TEXT class label, so
`compute_class_average_for_user` finds no assignments and returns
`None`. -/
lemma avg_int_param_none {P T : Type} (K : GradeCrypto P T) (db : DB T)
    (n : ℤ) (uid : ℕ) :
    compute_class_average_for_user K false db (SqlVal.i n) uid = none := by
  unfold compute_class_average_for_user avgParamMatch sqlEq
  simp

/-!
## Shared supporting lemmas for the claim theorems
-/

/-- Decomposition of membership in `latestGradeRows`: a selected row
belongs to the snapshot, is the user's, and its `id` dominates every
grade row of the same user and assignment. -/
lemma mem_latestGradeRows {T : Type} {grades : List (GradeEntry T)} {uid : ℕ}
    {ids : List ℕ} {g : GradeEntry T} (hg : g ∈ latestGradeRows grades uid ids) :
    g ∈ grades ∧ g.user_id = uid ∧
      ∀ x ∈ grades, x.user_id = uid → x.assignment_id = g.assignment_id →
        x.id ≤ g.id := by
  obtain ⟨hm, hc⟩ := List.mem_filter.1 hg
  simp only [Bool.and_eq_true, beq_iff_eq, List.all_eq_true] at hc
  obtain ⟨⟨h1, _⟩, h3⟩ := hc
  refine ⟨hm, h1, fun x hx hxu hxa => ?_⟩
  have hfx := h3 x hx
  simp [hxu, hxa, h1] at hfx
  exact hfx

/-- The percentage extractor of the `grade_tracker` overview yields
nothing when every grade row of the snapshot is unusable (falsy token,
failed decryption, or zero denominator). -/
lemma trackerPercentages_nil {P T : Type} (K : GradeCrypto P T)
    (grades rows : List (GradeEntry T))
    (hsub : ∀ g ∈ rows, g ∈ grades)
    (hK : ∀ g ∈ grades, decrypt_grade_safe K (some g.grade) = none ∨
      decrypt_grade_safe K (some g.out_of) = none ∨
      decrypt_grade_safe K (some g.out_of) = some 0) :
    rows.filterMap (fun g =>
      if K.isFalsy g.grade || K.isFalsy g.out_of then none
      else
        match decrypt_grade K g.grade, decrypt_grade K g.out_of with
        | some g_val, some o_val =>
          if o_val = 0 then none else some (g_val / o_val * 100)
        | _, _ => none) = [] := by
  rw [List.filterMap_eq_nil_iff]
  intro g hg
  have hgm := hsub g hg
  by_cases hf1 : K.isFalsy g.grade
  · simp [hf1]
  · by_cases hf2 : K.isFalsy g.out_of
    · simp [hf2]
    · rw [if_neg (by simp [hf1, hf2])]
      have e1 := decrypt_grade_safe_of_not_falsy K g.grade (by simpa using hf1)
      have e2 := decrypt_grade_safe_of_not_falsy K g.out_of (by simpa using hf2)
      rcases hK g hgm with h | h | h
      · rw [e1] at h
        rw [h]
      · rw [e2] at h
        cases h1 : decrypt_grade K g.grade with
        | none => rfl
        | some gv => rw [h]
      · rw [e2] at h
        cases h1 : decrypt_grade K g.grade with
        | none => rfl
        | some gv => rw [h]; simp

/-- Properties of the capped completion percentage
(`round` then clamp to 100, or 0 for a non-positive target). -/
lemma cap_percent_props (d : ℕ) (tn : ℚ) :
    (if 0 < tn then
        (if 100 < round2 ((d : ℚ) / tn * 100) then 100
          else round2 ((d : ℚ) / tn * 100))
      else 0) ≤ 100 ∧
    (0 < tn →
      (if 0 < tn then
          (if 100 < round2 ((d : ℚ) / tn * 100) then 100
            else round2 ((d : ℚ) / tn * 100))
        else 0) = min 100 (round2 ((d : ℚ) / tn * 100))) ∧
    (tn ≤ 0 →
      (if 0 < tn then
          (if 100 < round2 ((d : ℚ) / tn * 100) then 100
            else round2 ((d : ℚ) / tn * 100))
        else 0) = 0) := by
  refine ⟨?_, ?_, ?_⟩
  · by_cases h0 : 0 < tn
    · rw [if_pos h0]
      by_cases hc : 100 < round2 ((d : ℚ) / tn * 100)
      · rw [if_pos hc]
      · rw [if_neg hc]
        exact le_of_not_lt hc
    · rw [if_neg h0]
      norm_num
  · intro h0
    rw [if_pos h0]
    rcases lt_or_le 100 (round2 ((d : ℚ) / tn * 100)) with hc | hc
    · rw [if_pos hc, min_eq_left (le_of_lt hc)]
    · rw [if_neg (not_lt.2 hc), min_eq_right hc]
  · intro h0
    rw [if_neg (not_lt.2 h0)]

/-!
## Claim theorems
-/

/-- C1 counterexample: `compute_class_average_for_user` does NOT apply
the ProficiencyBlender rule.  For user 1 and class "math" with a
proficiency entry at 100% and a regular entry at 80% it returns the
plain mean 90, while the claimed 90/10 blend is 98. -/
theorem c1_counterexample :
    compute_class_average_for_user idCrypto true dbBlend (SqlVal.s "math") 1 = some 90 ∧
    (90 : ℚ) ≠ (9/10) * 100 + (1/10) * 80 := by
  constructor
  · have hm : avgParamMatch true "math" (SqlVal.s "math") = true := by decide
    have hr : round2 (90 : ℚ) = 90 := by
      rw [round2_eq_down 90 9000 (by norm_num) (by norm_num)]; norm_num
    norm_num [compute_class_average_for_user, latestGradeRows, classAvgPercentages,
      decrypt_grade_safe, idCrypto, dbBlend, hm, hr, List.filter_cons, List.filterMap_cons,
      List.all_cons, List.contains, List.elem_cons, Option.some_ne_none]
  · norm_num

/-- C1 amended: only the `grade_tracker_class` route applies the
ProficiencyBlender rule.  Whenever it returns a view, the class average
is `0.90 * mean(proficiency_scores) + 0.10 * mean(regular_scores)` when
both buckets are non-empty, the single non-empty bucket's mean when
exactly one is non-empty, and absent when both are empty.
`compute_class_average_for_user` (used by grade goals) and the
`grade_tracker` overview ignore the proficiency flag and take the plain
mean of all surviving percentages. -/
theorem c1_blender {P T : Type} (K : GradeCrypto P T) (isPG : Bool)
    (db : DB T) (uid cid : ℕ) (v : ClassView)
    (h : grade_tracker_class K isPG db uid cid = some v) :
    (v.proficiency_scores ≠ [] → v.regular_scores ≠ [] →
      v.class_average = some ((9/10) *
        (v.proficiency_scores.sum / v.proficiency_scores.length) +
        (1/10) * (v.regular_scores.sum / v.regular_scores.length))) ∧
    (v.proficiency_scores ≠ [] → v.regular_scores = [] →
      v.class_average = some (v.proficiency_scores.sum / v.proficiency_scores.length)) ∧
    (v.proficiency_scores = [] → v.regular_scores ≠ [] →
      v.class_average = some (v.regular_scores.sum / v.regular_scores.length)) ∧
    (v.proficiency_scores = [] → v.regular_scores = [] → v.class_average = none) := by
  simp only [grade_tracker_class] at h
  cases hh : (db.class_links.filter (fun l => l.id == cid && l.user_id == uid)).head? with
  | none => rw [hh] at h; cases h
  | some link =>
    rw [hh] at h
    injection h with h
    subst h
    refine ⟨?_, ?_, ?_, ?_⟩ <;> intro hp hr <;> dsimp only at hp hr ⊢
    · rw [if_neg (by simpa using hp), if_neg (by simpa using hr)]
      dsimp only
      congr 1
      ring
    · rw [if_neg (by simpa using hp), if_pos (by simpa using hr)]
    · rw [if_pos (by simpa using hp), if_neg (by simpa using hr)]
    · rw [if_pos (by simpa using hp), if_pos (by simpa using hr)]

/-- C1 witness: on `dbBlend` the `grade_tracker_class` route produces
buckets `[100]` and `[80]` and the blended average 98, which equals the
90/10 blend of the bucket means by `c1_blender`. -/
theorem c1_blender_witness :
    grade_tracker_class idCrypto true dbBlend 1 7 = some ⟨"math", [100], [80], some 98⟩ ∧
    (98 : ℚ) = (9/10) * (([100] : List ℚ).sum / ([100] : List ℚ).length) +
      (1/10) * (([80] : List ℚ).sum / ([80] : List ℚ).length) := by
  have hs : strLower (strTrim (strLower (strTrim "math"))) = strLower (strTrim "math") := by
    decide
  have hr1 : round2 (100 : ℚ) = 100 := by
    rw [round2_eq_down 100 10000 (by norm_num) (by norm_num)]; norm_num
  have hr2 : round2 (80 : ℚ) = 80 := by
    rw [round2_eq_down 80 8000 (by norm_num) (by norm_num)]; norm_num
  have h : grade_tracker_class idCrypto true dbBlend 1 7 =
      some ⟨"math", [100], [80], some 98⟩ := by
    norm_num [grade_tracker_class, latestGradeFor, decrypt_grade_safe, idCrypto, dbBlend,
      hs, hr1, hr2, List.filter_cons, List.filterMap_cons, List.foldl_cons,
      Option.some_ne_none]
  have hb := (c1_blender idCrypto true dbBlend 1 7 _ h).1 (by decide) (by decide)
  exact ⟨h, Option.some.inj hb⟩

/-- C2: the grade-goal branch never consults the ClassBinding.  On
`dbBlend` the binding of goal `goalGrade` (class id 7) resolves to
"math" via `get_class_name_from_links`, and the class average for
"math" exists (90), yet `compute_goal_progress` reports progress and
percent_of_target absent, because the code passes the numeric class id
itself as the class-label parameter of
`compute_class_average_for_user`. -/
theorem c2_bug :
    get_class_name_from_links dbBlend (some 7) 1 = some "math" ∧
    compute_class_average_for_user idCrypto false dbBlend (SqlVal.s "math") 1 = some 90 ∧
    compute_goal_progress idCrypto false dbBlend goalGrade 1 =
      ⟨"grade", some none, none, some (SqlVal.r 85), some none⟩ := by
  refine ⟨by decide, ?_, by decide⟩
  have hm : avgParamMatch false "math" (SqlVal.s "math") = true := by decide
  have hr : round2 (90 : ℚ) = 90 := by
    rw [round2_eq_down 90 9000 (by norm_num) (by norm_num)]; norm_num
  norm_num [compute_class_average_for_user, latestGradeRows, classAvgPercentages,
    decrypt_grade_safe, idCrypto, dbBlend, hm, hr, List.filter_cons, List.filterMap_cons,
    List.all_cons, List.contains, List.elem_cons, Option.some_ne_none]

/-- C3 counterexample: the `grade_tracker` overview aggregates ALL grade
entries, not only the latest.  With a history of 50/100 (id 1) then
100/100 (id 2) on one assignment, its class average is 75 (the mean of
both), while `compute_class_average_for_user` on the same data gives
100 (latest only); under the claim the overview would also give 100. -/
theorem c3_counterexample :
    grade_tracker_average idCrypto false dbHist 1 "math" = some 75 ∧
    compute_class_average_for_user idCrypto false dbHist (SqlVal.s "math") 1 = some 100 ∧
    (75 : ℚ) ≠ 100 := by
  refine ⟨?_, ?_, by norm_num⟩
  · have hm : classNameMatch false "math" "math" = true := by decide
    have hr : round2 (75 : ℚ) = 75 := by
      rw [round2_eq_down 75 7500 (by norm_num) (by norm_num)]; norm_num
    norm_num [grade_tracker_average, decrypt_grade, idCrypto, dbHist, hm, hr,
      List.filter_cons, List.filterMap_cons, List.contains, List.elem_cons,
      Option.some_ne_none]
  · have hm : avgParamMatch false "math" (SqlVal.s "math") = true := by decide
    have hr : round2 (100 : ℚ) = 100 := by
      rw [round2_eq_down 100 10000 (by norm_num) (by norm_num)]; norm_num
    norm_num [compute_class_average_for_user, latestGradeRows, classAvgPercentages,
      decrypt_grade_safe, idCrypto, dbHist, hm, hr, List.filter_cons, List.filterMap_cons,
      List.all_cons, List.contains, List.elem_cons, Option.some_ne_none]

/-- C3 amended: the latest-grade invariant holds for the two
computations that implement it.  Assuming distinct grade-row ids
(primary key), every row selected by `latestGradeRows` (used by
`compute_class_average_for_user`) dominates all grade rows of its
user and assignment, at most one row per assignment is selected, and
the row found by `latestGradeFor` (used by `grade_tracker_class`)
dominates every grade row of that assignment and user.  The
`grade_tracker` overview does not restrict to latest entries. -/
theorem c3_latest_only {T : Type} (grades : List (GradeEntry T)) (uid : ℕ)
    (ids : List ℕ) (aid : ℕ) (g g2 g3 : GradeEntry T)
    (hnodup : (grades.map (fun e => e.id)).Nodup)
    (hg : g ∈ latestGradeRows grades uid ids) (hg2 : g2 ∈ grades)
    (hfold : latestGradeFor grades aid uid = some g3) :
    (g2.user_id = uid → g2.assignment_id = g.assignment_id → g2.id ≤ g.id) ∧
    (g2 ∈ latestGradeRows grades uid ids → g2.assignment_id = g.assignment_id →
      g2 = g) ∧
    (g2.assignment_id = aid → g2.user_id = uid → g2.id ≤ g3.id) := by
  obtain ⟨hgm, hgu, hgmax⟩ := mem_latestGradeRows hg
  refine ⟨fun hu ha => hgmax g2 hg2 hu ha, fun hmem ha => ?_, fun ha hu => ?_⟩
  · obtain ⟨_, h2u, h2max⟩ := mem_latestGradeRows hmem
    have hle1 : g2.id ≤ g.id := hgmax g2 hg2 h2u ha
    have hle2 : g.id ≤ g2.id := h2max g hgm hgu ha.symm
    exact List.inj_on_of_nodup_map hnodup hg2 hgm (le_antisymm hle1 hle2)
  · have hmem2 : g2 ∈ grades.filter
        (fun e => e.assignment_id == aid && e.user_id == uid) := by
      rw [List.mem_filter]
      exact ⟨hg2, by simp [ha, hu]⟩
    exact (latestFold_max _ none g3 hfold).1 g2 hmem2

/-- C3 witness: `c3_latest_only` instantiated on the two-entry history
of `dbHist` (superseded entry id 1, latest entry id 2). -/
theorem c3_latest_only_witness :
    (((⟨1, 1, 1, some 50, some 100, 0⟩ : GradeEntry (Option ℚ)).user_id = 1 →
      (⟨1, 1, 1, some 50, some 100, 0⟩ : GradeEntry (Option ℚ)).assignment_id =
        (⟨2, 1, 1, some 100, some 100, 0⟩ : GradeEntry (Option ℚ)).assignment_id →
      (⟨1, 1, 1, some 50, some 100, 0⟩ : GradeEntry (Option ℚ)).id ≤
        (⟨2, 1, 1, some 100, some 100, 0⟩ : GradeEntry (Option ℚ)).id) ∧
    ((⟨1, 1, 1, some 50, some 100, 0⟩ : GradeEntry (Option ℚ)) ∈
        latestGradeRows dbHist.grades 1 [1] →
      (⟨1, 1, 1, some 50, some 100, 0⟩ : GradeEntry (Option ℚ)).assignment_id =
        (⟨2, 1, 1, some 100, some 100, 0⟩ : GradeEntry (Option ℚ)).assignment_id →
      (⟨1, 1, 1, some 50, some 100, 0⟩ : GradeEntry (Option ℚ)) =
        (⟨2, 1, 1, some 100, some 100, 0⟩ : GradeEntry (Option ℚ))) ∧
    ((⟨1, 1, 1, some 50, some 100, 0⟩ : GradeEntry (Option ℚ)).assignment_id = 1 →
      (⟨1, 1, 1, some 50, some 100, 0⟩ : GradeEntry (Option ℚ)).user_id = 1 →
      (⟨1, 1, 1, some 50, some 100, 0⟩ : GradeEntry (Option ℚ)).id ≤
        (⟨2, 1, 1, some 100, some 100, 0⟩ : GradeEntry (Option ℚ)).id)) :=
  c3_latest_only dbHist.grades 1 [1] 1 ⟨2, 1, 1, some 100, some 100, 0⟩
    ⟨1, 1, 1, some 50, some 100, 0⟩ ⟨2, 1, 1, some 100, some 100, 0⟩
    (by decide) (by decide) (by decide) (by decide)

/-- C4 counterexample: on the SQLite backend the matching predicates are
case-sensitive, so an assignment labelled `" Math "` does not match the
class name `"math"` in either the class-average lookup
(`TRIM(cl) = ?`) or the completion count (`TRIM(cl) = TRIM(?)`), even
though the two agree after trimming and lower-casing. -/
theorem c4_counterexample :
    avgParamMatch false " Math " (SqlVal.s "math") = false ∧
    classNameMatch false " Math " "math" = false ∧
    strLower (strTrim " Math ") = strLower (strTrim "math") := by
  decide

/-- C4 amended: on Postgres both lookups match exactly when
`lower(trim(label)) = lower(trim(name))` (so `" Math "` matches
`"math"`, giving average 90 and completion count 1 on `dbTrimCase`),
but on SQLite the class-average lookup compares `trim(label)` with the
raw parameter and the completion count compares `trim(label)` with
`trim(name)`, both case-sensitively (giving no average and count 0). -/
theorem c4_matching :
    (∀ cl name : String,
      (avgParamMatch true cl (SqlVal.s name) = true ↔
        strLower (strTrim cl) = strLower (strTrim name)) ∧
      (classNameMatch true cl name = true ↔
        strLower (strTrim cl) = strLower (strTrim name)) ∧
      (avgParamMatch false cl (SqlVal.s name) = true ↔ strTrim cl = name) ∧
      (classNameMatch false cl name = true ↔ strTrim cl = strTrim name)) ∧
    compute_class_average_for_user idCrypto true dbTrimCase (SqlVal.s "math") 1 = some 90 ∧
    compute_class_average_for_user idCrypto false dbTrimCase (SqlVal.s "math") 1 = none ∧
    completionDone true dbTrimCase 1 (some "math") = 1 ∧
    completionDone false dbTrimCase 1 (some "math") = 0 := by
  refine ⟨?_, ?_, by decide, by decide, by decide⟩
  · intro cl name
    simp [avgParamMatch, classNameMatch, sqlEq]
  · have hm : avgParamMatch true " Math " (SqlVal.s "math") = true := by decide
    have hr : round2 (90 : ℚ) = 90 := by
      rw [round2_eq_down 90 9000 (by norm_num) (by norm_num)]; norm_num
    norm_num [compute_class_average_for_user, latestGradeRows, classAvgPercentages,
      decrypt_grade_safe, idCrypto, dbTrimCase, hm, hr, List.filter_cons, List.filterMap_cons,
      List.all_cons, List.contains, List.elem_cons, Option.some_ne_none]

/-- C5: unusable grade entries are excluded from class averaging and
emptiness yields absence, never zero.  (1) Every percentage aggregated
by `compute_class_average_for_user` comes from an entry whose `grade`
and `out_of` both decrypt safely with non-zero `out_of`, and equals
`grade / out_of * 100`.  (2) When every grade row fails decryption or
has `out_of` = 0, `compute_class_average_for_user` returns `None`.
(3) Likewise for the `grade_tracker` overview average.  (4) When both
buckets of `grade_tracker_class` are empty the class average is
`None`. -/
theorem c5_bad_entries_excluded :
    (∀ (P T : Type) (K : GradeCrypto P T) (rows : List (GradeEntry T)) (q : ℚ),
      q ∈ classAvgPercentages K rows →
      ∃ g ∈ rows, ∃ gv ov, decrypt_grade_safe K (some g.grade) = some gv ∧
        decrypt_grade_safe K (some g.out_of) = some ov ∧ ov ≠ 0 ∧
        q = gv / ov * 100) ∧
    (∀ (P T : Type) (K : GradeCrypto P T) (isPG : Bool) (db : DB T) (p : SqlVal)
      (uid : ℕ),
      (∀ g ∈ db.grades, decrypt_grade_safe K (some g.grade) = none ∨
        decrypt_grade_safe K (some g.out_of) = none ∨
        decrypt_grade_safe K (some g.out_of) = some 0) →
      compute_class_average_for_user K isPG db p uid = none) ∧
    (∀ (P T : Type) (K : GradeCrypto P T) (isPG : Bool) (db : DB T) (uid : ℕ)
      (name : String),
      (∀ g ∈ db.grades, decrypt_grade_safe K (some g.grade) = none ∨
        decrypt_grade_safe K (some g.out_of) = none ∨
        decrypt_grade_safe K (some g.out_of) = some 0) →
      grade_tracker_average K isPG db uid name = none) ∧
    (∀ (P T : Type) (K : GradeCrypto P T) (isPG : Bool) (db : DB T) (uid cid : ℕ)
      (v : ClassView),
      grade_tracker_class K isPG db uid cid = some v →
      v.proficiency_scores = [] → v.regular_scores = [] →
      v.class_average = none) := by
  refine ⟨?_, ?_, ?_, ?_⟩
  · intro P T K rows q hq
    obtain ⟨g, hgm, hfg⟩ := List.mem_filterMap.1 hq
    cases h1 : decrypt_grade_safe K (some g.grade) with
    | none => rw [h1] at hfg; exact Option.noConfusion hfg
    | some gv =>
      cases h2 : decrypt_grade_safe K (some g.out_of) with
      | none => rw [h1, h2] at hfg; exact Option.noConfusion hfg
      | some ov =>
        rw [h1, h2] at hfg
        dsimp only at hfg
        by_cases hz : ov = 0
        · rw [if_pos hz] at hfg; exact Option.noConfusion hfg
        · rw [if_neg hz] at hfg
          exact ⟨g, hgm, gv, ov, h1, h2, hz, (Option.some.inj hfg).symm⟩
  · intro P T K isPG db p uid hK
    have hper : ∀ ids : List ℕ,
        classAvgPercentages K (latestGradeRows db.grades uid ids) = [] := by
      intro ids
      rw [classAvgPercentages, List.filterMap_eq_nil_iff]
      intro g hg
      have hgm : g ∈ db.grades := (List.mem_filter.1 hg).1
      rcases hK g hgm with h | h | h
      · rw [h]
      · cases h1 : decrypt_grade_safe K (some g.grade) with
        | none => rfl
        | some gv => rw [h]
      · cases h1 : decrypt_grade_safe K (some g.grade) with
        | none => rfl
        | some gv => rw [h]; simp
    simp only [compute_class_average_for_user, hper]
    simp
  · intro P T K isPG db uid name hK
    simp only [grade_tracker_average]
    rw [trackerPercentages_nil K db.grades _
      (fun g hg => (List.mem_filter.1 hg).1) hK]
    simp
  · intro P T K isPG db uid cid v h hp hr
    simp only [grade_tracker_class] at h
    split at h
    · exact Option.noConfusion h
    · injection h with h
      subst h
      dsimp only at hp hr ⊢
      rw [hp, hr]
      simp

/-- C5 witness: on `dbCorrupt` (one corrupt `grade` token, one `out_of`
decrypting to 0) the class average is absent, by
`c5_bad_entries_excluded`. -/
theorem c5_bad_entries_excluded_witness :
    compute_class_average_for_user idCrypto false dbCorrupt (SqlVal.s "math") 1 = none :=
  c5_bad_entries_excluded.2.1 ℚ (Option ℚ) idCrypto false dbCorrupt (SqlVal.s "math") 1
    (by decide)

/-- C6: a completion goal always yields a result carrying the submitted
count and the coerced target, and its percent of target is the 2-decimal
rounded `done / target * 100` capped at 100 when the target is positive
and 0 otherwise; the computation is total (no division error). -/
theorem c6_completion {P T : Type} (K : GradeCrypto P T) (isPG : Bool) (db : DB T)
    (goal : Goal) (uid : ℕ) (h : strLower goal.goal_type = "completion") :
    ∃ d t pct, compute_goal_progress K isPG db goal uid =
        ⟨"completion", none, some d, some (SqlVal.r t), some (some pct)⟩ ∧
      d = completionDone isPG db uid (get_class_name_from_links db goal.class_id uid) ∧
      pct ≤ 100 ∧
      (0 < t → pct = min 100 (round2 ((d : ℚ) / t * 100))) ∧
      (t ≤ 0 → pct = 0) := by
  have h1 : (("completion" : String) == "grade") = false := by decide
  have h2 : (("completion" : String) == "completion") = true := by decide
  simp only [compute_goal_progress, h, h1, h2, Bool.false_eq_true, if_false, if_true]
  exact ⟨_, _, _, rfl, rfl, (cap_percent_props _ _).1, (cap_percent_props _ _).2.1,
    (cap_percent_props _ _).2.2⟩

/-- C6 witness: the unbound completion goal `goalCompl` (target 5) over
`dbThree` (3 submitted assignments), via `c6_completion`. -/
theorem c6_completion_witness :
    strLower goalCompl.goal_type = "completion" ∧
    ∃ d t pct, compute_goal_progress idCrypto false dbThree goalCompl 1 =
        ⟨"completion", none, some d, some (SqlVal.r t), some (some pct)⟩ ∧
      d = completionDone false dbThree 1
        (get_class_name_from_links dbThree goalCompl.class_id 1) ∧
      pct ≤ 100 ∧
      (0 < t → pct = min 100 (round2 ((d : ℚ) / t * 100))) ∧
      (t ≤ 0 → pct = 0) :=
  ⟨by decide, c6_completion idCrypto false dbThree goalCompl 1 (by decide)⟩

/-- C7: the grade codec round-trips and the safe decryptor never fails
loudly: decrypting an encrypted finite value returns that value, and a
`None` token, a falsy token, a token the cipher rejects, or plaintext
that `float` rejects all yield absence instead of an exception (the
function is total). -/
theorem c7_codec_roundtrip {P T : Type} (K : GradeCrypto P T) (x : ℚ) (t : T) :
    decrypt_grade_safe K (some (encrypt_grade K x)) = some x ∧
    decrypt_grade_safe K none = none ∧
    (K.isFalsy t = true → decrypt_grade_safe K (some t) = none) ∧
    (K.fernetDec t = none → decrypt_grade_safe K (some t) = none) ∧
    (∀ pl, K.fernetDec t = some pl → K.pyFloat pl = none →
      decrypt_grade_safe K (some t) = none) := by
  refine ⟨?_, rfl, ?_, ?_, ?_⟩
  · simp [decrypt_grade_safe, encrypt_grade, K.enc_not_falsy, K.dec_enc, K.float_str]
  · intro h
    simp [decrypt_grade_safe, h]
  · intro h
    by_cases hf : K.isFalsy t
    · simp [decrypt_grade_safe, hf]
    · simp [decrypt_grade_safe, hf, h]
  · intro pl h1 h2
    by_cases hf : K.isFalsy t
    · simp [decrypt_grade_safe, hf]
    · simp [decrypt_grade_safe, hf, h1, h2]

/-- C7 witness: round trip at 3/2 and failure on the corrupt token of
the concrete codec, via `c7_codec_roundtrip`. -/
theorem c7_codec_roundtrip_witness :
    decrypt_grade_safe idCrypto (some (encrypt_grade idCrypto (3/2))) = some (3/2) ∧
    decrypt_grade_safe idCrypto (some none) = none :=
  ⟨(c7_codec_roundtrip idCrypto (3/2) none).1,
   (c7_codec_roundtrip idCrypto (3/2) none).2.2.2.1 rfl⟩

/-- C8 counterexample: the `grade_tracker_class` route rounds each
entry's percentage to 2 decimals but does NOT round the final blended
average.  With a proficiency entry 1/3 (entry percentage 33.33) and a
regular entry at 80 the class average is 37.997, which is not a
2-decimal value. -/
theorem c8_counterexample :
    grade_tracker_class idCrypto true dbThird 1 7 =
      some ⟨"math", [3333/100], [80], some (37997/1000)⟩ ∧
    round2 (37997/1000 : ℚ) ≠ (37997/1000 : ℚ) := by
  constructor
  · have hs : strLower (strTrim (strLower (strTrim "math"))) = strLower (strTrim "math") := by
      decide
    have hr1 : round2 ((100 : ℚ)/3) = 3333/100 := by
      rw [round2_eq_down (100/3) 3333 (by norm_num) (by norm_num)]; norm_num
    have hr2 : round2 (80 : ℚ) = 80 := by
      rw [round2_eq_down 80 8000 (by norm_num) (by norm_num)]; norm_num
    norm_num [grade_tracker_class, latestGradeFor, decrypt_grade_safe, idCrypto, dbThird,
      hs, hr1, hr2, List.filter_cons, List.filterMap_cons, List.foldl_cons,
      Option.some_ne_none]
  · rw [round2_eq_up (37997/1000) 3799 (by norm_num) (by norm_num)]
    norm_num

/-- C8 amended: `compute_class_average_for_user` and the `grade_tracker`
overview aggregate raw (unrounded) per-entry percentages and round only
the final average to 2 decimals (every returned average is a fixed
point of `round2`); `grade_tracker_class` rounds each surviving entry's
percentage to 2 decimals (every bucket element is a fixed point of
`round2`) but does not round its final blended average. -/
theorem c8_rounding :
    (∀ (P T : Type) (K : GradeCrypto P T) (isPG : Bool) (db : DB T) (p : SqlVal)
      (uid : ℕ) (q : ℚ),
      compute_class_average_for_user K isPG db p uid = some q → round2 q = q) ∧
    (∀ (P T : Type) (K : GradeCrypto P T) (isPG : Bool) (db : DB T) (uid : ℕ)
      (name : String) (q : ℚ),
      grade_tracker_average K isPG db uid name = some q → round2 q = q) ∧
    (∀ (P T : Type) (K : GradeCrypto P T) (isPG : Bool) (db : DB T) (uid cid : ℕ)
      (v : ClassView) (x : ℚ),
      grade_tracker_class K isPG db uid cid = some v →
      x ∈ v.proficiency_scores ∨ x ∈ v.regular_scores → round2 x = x) := by
  refine ⟨?_, ?_, ?_⟩
  · intro P T K isPG db p uid q h
    simp only [compute_class_average_for_user] at h
    split at h
    · exact Option.noConfusion h
    · split at h
      · exact Option.noConfusion h
      · rw [← Option.some.inj h, round2_round2]
  · intro P T K isPG db uid name q h
    simp only [grade_tracker_average] at h
    split at h
    · exact Option.noConfusion h
    · rw [← Option.some.inj h, round2_round2]
  · intro P T K isPG db uid cid v x h hx
    simp only [grade_tracker_class] at h
    split at h
    · exact Option.noConfusion h
    · injection h with h
      subst h
      dsimp only at hx
      have hsc : ∃ pr : ℚ × ℤ, pr.1 = x ∧ ∃ a : Assignment,
          (match latestGradeFor db.grades a.id uid with
            | none => none
            | some g =>
              match decrypt_grade_safe K (some g.grade),
                    decrypt_grade_safe K (some g.out_of) with
              | some g_val, some out_val =>
                if out_val = 0 then none
                else some (round2 (g_val / out_val * 100), g.proficiency)
              | _, _ => none) = some pr := by
        rcases hx with hx | hx <;>
          obtain ⟨pr, hprm, hpx⟩ := List.mem_map.1 hx <;>
          obtain ⟨a, _, hfa⟩ := List.mem_filterMap.1 (List.mem_filter.1 hprm).1 <;>
          exact ⟨pr, hpx, a, hfa⟩
      obtain ⟨pr, hpx, a, hfa⟩ := hsc
      cases hl : latestGradeFor db.grades a.id uid with
      | none => rw [hl] at hfa; exact Option.noConfusion hfa
      | some g =>
        rw [hl] at hfa
        dsimp only at hfa
        cases h1 : decrypt_grade_safe K (some g.grade) with
        | none => rw [h1] at hfa; exact Option.noConfusion hfa
        | some gv =>
          cases h2 : decrypt_grade_safe K (some g.out_of) with
          | none => rw [h1, h2] at hfa; exact Option.noConfusion hfa
          | some ov =>
            rw [h1, h2] at hfa
            dsimp only at hfa
            by_cases hz : ov = 0
            · rw [if_pos hz] at hfa; exact Option.noConfusion hfa
            · rw [if_neg hz] at hfa
              have := Option.some.inj hfa
              rw [← hpx, ← this]
              exact round2_round2 _

/-- C8 witness: applying `c8_rounding` to the concrete average 90 of
`dbBlend`: the returned value is a fixed point of `round2`. -/
theorem c8_rounding_witness :
    compute_class_average_for_user idCrypto true dbBlend (SqlVal.s "math") 1 = some 90 ∧
    round2 (90 : ℚ) = 90 := by
  have hm : avgParamMatch true "math" (SqlVal.s "math") = true := by decide
  have hr : round2 (90 : ℚ) = 90 := by
    rw [round2_eq_down 90 9000 (by norm_num) (by norm_num)]; norm_num
  have h : compute_class_average_for_user idCrypto true dbBlend (SqlVal.s "math") 1 =
      some 90 := by
    norm_num [compute_class_average_for_user, latestGradeRows, classAvgPercentages,
      decrypt_grade_safe, idCrypto, dbBlend, hm, hr, List.filter_cons, List.filterMap_cons,
      List.all_cons, List.contains, List.elem_cons, Option.some_ne_none]
  exact ⟨h, c8_rounding.1 ℚ (Option ℚ) idCrypto true dbBlend (SqlVal.s "math") 1 90 h⟩

/-- C9 counterexample: for a goal of type `"Streak"` the result carries
the lower-cased type `"streak"`, not the raw type, and has no
`percent_of_target` key (outer `none`). -/
theorem c9_counterexample :
    compute_goal_progress idCrypto false dbEmpty goalStreak 1 =
      ⟨"streak", some none, none, some (SqlVal.r 5), none⟩ ∧
    ("streak" : String) ≠ "Streak" := by
  constructor
  · decide
  · decide

/-- C9 amended: for every goal whose lower-cased type is neither
`"grade"` nor `"completion"`, `compute_goal_progress` returns normally
with the lower-cased type, `progress = None`, the target unchanged, and
no `percent_of_target` key. -/
theorem c9_unknown_type {P T : Type} (K : GradeCrypto P T) (isPG : Bool) (db : DB T)
    (goal : Goal) (uid : ℕ) (h1 : strLower goal.goal_type ≠ "grade")
    (h2 : strLower goal.goal_type ≠ "completion") :
    compute_goal_progress K isPG db goal uid =
      ⟨strLower goal.goal_type, some none, none, goal.target_value, none⟩ := by
  have hb1 : (strLower goal.goal_type == "grade") = false := by
    simpa using h1
  have hb2 : (strLower goal.goal_type == "completion") = false := by
    simpa using h2
  simp [compute_goal_progress, hb1, hb2]

/-- C9 witness: `c9_unknown_type` applied to the `"Streak"` goal. -/
theorem c9_unknown_type_witness :
    compute_goal_progress idCrypto true dbEmpty goalStreak 1 =
      ⟨"streak", some none, none, some (SqlVal.r 5), none⟩ := by
  rw [c9_unknown_type idCrypto true dbEmpty goalStreak 1 (by decide) (by decide)]
  decide

/-- C10 counterexample: no grade goal ever returns a numeric
`percent_of_target` on the SQLite backend: the grade branch passes the
numeric class id as the class-label parameter, the typed comparison
never matches, the average is absent, and the percent stays `None` —
so the claimed uncapped grade-goal percent is unreachable. -/
theorem c10_counterexample :
    ¬ ∃ (db : DB (Option ℚ)) (g : Goal) (uid : ℕ) (q : ℚ),
        strLower g.goal_type = "grade" ∧
        (compute_goal_progress idCrypto false db g uid).percent_of_target =
          some (some q) := by
  rintro ⟨db, g, uid, q, hty, hp⟩
  simp only [compute_goal_progress, hty] at hp
  by_cases hc : truthyId g.class_id
  · simp only [hc] at hp
    rw [avg_int_param_none] at hp
    simp at hp
  · simp only [hc] at hp
    simp at hp

/-- C10 amended: per-entry percentages and class averages are uncapped
and can exceed 100 — a 150/100 entry yields class average 150 in both
`compute_class_average_for_user` and `grade_tracker_class` — while the
completion goal's percent is capped at 100 (7 submitted against target
5 yields 100). -/
theorem c10_uncapped :
    compute_class_average_for_user idCrypto true dbOver (SqlVal.s "math") 1 = some 150 ∧
    grade_tracker_class idCrypto true dbOver 1 7 = some ⟨"math", [], [150], some 150⟩ ∧
    compute_goal_progress idCrypto false dbSeven goalCompl 1 =
      ⟨"completion", none, some 7, some (SqlVal.r 5), some (some 100)⟩ ∧
    (100 : ℚ) < 150 := by
  have hr150 : round2 (150 : ℚ) = 150 := by
    rw [round2_eq_down 150 15000 (by norm_num) (by norm_num)]; norm_num
  refine ⟨?_, ?_, ?_, by norm_num⟩
  · have hm : avgParamMatch true "math" (SqlVal.s "math") = true := by decide
    norm_num [compute_class_average_for_user, latestGradeRows, classAvgPercentages,
      decrypt_grade_safe, idCrypto, dbOver, hm, hr150, List.filter_cons, List.filterMap_cons,
      List.all_cons, List.contains, List.elem_cons, Option.some_ne_none]
  · have hs : strLower (strTrim (strLower (strTrim "math"))) = strLower (strTrim "math") := by
      decide
    norm_num [grade_tracker_class, latestGradeFor, decrypt_grade_safe, idCrypto, dbOver,
      hs, hr150, List.filter_cons, List.filterMap_cons, List.foldl_cons, Option.some_ne_none]
  · have hne : (strLower "completion" == "grade") = false := by decide
    have heq : (strLower "completion" == "completion") = true := by decide
    have hr140 : round2 (140 : ℚ) = 140 := by
      rw [round2_eq_down 140 14000 (by norm_num) (by norm_num)]; norm_num
    norm_num [compute_goal_progress, goalCompl, hne, heq, completionDone,
      get_class_name_from_links, truthyId, pyTruthyOpt, pyTruthyVal, asPyNumber,
      dbSeven, hr140, List.filter_cons]
